import Mathlib

/-!
Verification development for the MultiTalk backend CLI wrapper
(`cli.py` + `config.py`).

The Python code is shallowly embedded below:
* pure helpers become Lean functions;
* machine/IO boundaries (filesystem reads, HTTP transport, the spawned
  generator process, `shutil.rmtree`) become explicit inputs describing
  the outcome of the corresponding external call;
* Python `float` arithmetic on durations is modelled with exact
  rationals (`ℚ`); every quantity involved is a small ratio of integers
  and the comparisons of interest are far from representation
  boundaries;
* `raise RuntimeError(...)` sites are classified into the error
  taxonomy used by the design document (InputError / NetworkError /
  SubprocessFailure) according to the site that raises.
-/

/-- Error taxonomy of the wrapper: invalid input, download failure, or a
nonzero exit of the external generator (carrying the exit code and the
retained tail of its merged output). -/
inductive MTError where
  | inputError (msg : String)
  | networkError (msg : String)
  | subprocessFailure (exitCode : Int) (tail : List String)
deriving DecidableEq, Repr

/-- True exactly on the `inputError` variant. -/
def MTError.isInput : MTError → Bool
  | .inputError _ => true
  | _ => false

/-- True exactly on the `networkError` variant. -/
def MTError.isNetwork : MTError → Bool
  | .networkError _ => true
  | _ => false

/-- Boolean model of Python's `str.endswith`: the suffix test on the
underlying character lists. -/
def strEndsWith (s suffix : String) : Bool :=
  suffix.data.isSuffixOf s.data

/-- Model of Python's `str.lower()`, mapping `Char.toLower` over the
characters. -/
def strToLower (s : String) : String :=
  String.mk (s.data.map Char.toLower)

/-- Model of `os.path.isabs` / `str.startswith`: prefix test on the
underlying character lists. -/
def strStartsWith (s prefixStr : String) : Bool :=
  prefixStr.data.isPrefixOf s.data

/-- Boolean model of Python's `needle in hay` substring test. -/
def listIsInfixB (needle : List Char) : List Char → Bool
  | [] => needle.isPrefixOf []
  | c :: t => needle.isPrefixOf (c :: t) || listIsInfixB needle t

/-- Substring containment on strings, via `listIsInfixB`. -/
def strContains (hay needle : String) : Bool :=
  listIsInfixB needle.data hay.data

/-- Model of the extension returned by `os.path.splitext` applied to a
URL path (`cli.py` line 156): take the basename (text after the last
slash); the extension runs from the basename's last dot, unless every
character before that dot is itself a dot, in which case it is empty. -/
def splitextExt (path : String) : String :=
  let rev := path.data.reverse.takeWhile (fun c => c ≠ '/')
  let extRev := rev.takeWhile (fun c => c ≠ '.')
  if extRev.length = rev.length then ""
  else
    let stemRev := rev.drop (extRev.length + 1)
    if stemRev.all (fun c => c = '.') then ""
    else String.mk (('.' :: extRev).reverse)

/-! ### Static configuration (`config.py`) -/

/-- Avatar asset directory from `config.py`. -/
def AVATAR_DIR : String :=
  "/home/web/partha/vidLink/video_generators/multitalk/Input_outputs/input_files/sales_executive"

/-- Checkpoint directory from `config.py`. -/
def CKPT_DIR : String := "./weights/Wan2.1-I2V-14B-480P"

/-- wav2vec directory from `config.py`. -/
def WAV2VEC_DIR : String := "./weights/chinese-wav2vec2-base"

/-- Default TTS voice path from `config.py`. -/
def TTS_VOICE : String := "./weights/Kokoro-82M/voices/af_heart.pt"

/-! ### Frame-budget planning (`cli.py` lines 20-35 and 384-412) -/

/-- Characters per second used for duration estimation (`cli.py` line 21). -/
def CHARS_PER_SECOND : ℚ := 15

/-- Video frames per second (`cli.py` line 385). -/
def FPS : ℚ := 25

/-- Embedding of `_estimate_speech_duration_seconds` (`cli.py` lines
24-35): `None` for an empty text, otherwise character count divided by
`CHARS_PER_SECOND`.  The Python `isinstance` guard is captured by the
`String` type of the argument. -/
def estimateSpeechDurationSeconds (speech_text : String) : Option ℚ :=
  if speech_text.length = 0 then none
  else some ((speech_text.length : ℚ) / CHARS_PER_SECOND)

/-- The `video_duration_seconds` value computed in `main` (`cli.py`
line 387): the estimate when `speech_text` is truthy, else `None`. -/
def videoDurationSeconds (speech_text : String) : Option ℚ :=
  if speech_text ≠ "" then estimateSpeechDurationSeconds speech_text else none

/-- Embedding of the `frame_num` computation in `main` (`cli.py` lines
389-394): 33 when a duration estimate exists and is below `81 / FPS`
seconds, else the default 81. -/
def frameNumOf (video_duration_seconds : Option ℚ) : ℕ :=
  match video_duration_seconds with
  | some v => if v < 81 / FPS then 33 else 81
  | none => 81

/-- Embedding of the `max_frames_num` computation in `main` (`cli.py`
lines 396-412).  Python's `int()` truncation coincides with the floor
because the duration is nonnegative. -/
def maxFramesNumOf (mode : String) (video_duration_seconds : Option ℚ)
    (frame_num : ℕ) : ℕ :=
  if mode = "clip" then frame_num
  else
    match video_duration_seconds with
    | some v =>
      let frames_needed := (⌊v * FPS⌋).toNat
      let m := max frame_num frames_needed
      let remainder := (m - 1) % 4
      if remainder ≠ 0 then m + (4 - remainder) else m
    | none => 1000

/-- Frame-count algorithm written exactly as the specification's claim
words it (duration at 15 chars/s, `floor(duration * 25 * 0.9)`, clamp
into `[33, 81]`, round down to 1 mod 4); stated only to be compared
against the code's `frameNumOf`. -/
def specClaimFrameNum (len : ℕ) : ℕ :=
  let duration : ℚ := (len : ℚ) / 15
  let frames_target := (⌊duration * 25 * (9 / 10)⌋).toNat
  let clamped := min 81 (max 33 frames_target)
  clamped - (clamped - 1) % 4

/-! ### Subprocess supervision (`cli.py` lines 38-69) -/

/-- The bounded tail buffer of `_run_command_streaming` (`cli.py` lines
55-62): append each line, popping the front once the buffer exceeds 200
entries. -/
def tailBuffer (lines : List String) : List String :=
  lines.foldl
    (fun tail line =>
      let t := tail ++ [line]
      if 200 < t.length then t.drop 1 else t)
    []

/-- Embedding of `_run_command_streaming` (`cli.py` lines 38-69).  The
spawned process is modelled by the list of lines it writes to the merged
stdout/stderr stream and its exit code; a nonzero exit raises the
subprocess-failure error carrying the code and the retained tail. -/
def runCommandStreaming (lines : List String) (rc : Int) : Except MTError Unit :=
  if rc ≠ 0 then .error (.subprocessFailure rc (tailBuffer lines))
  else .ok ()

/-! ### Avatar asset selection (`cli.py` lines 111-140) -/

/-- A directory entry as observed by `os.listdir` plus the
`os.path.isdir` test on the joined path. -/
structure DirEntry where
  name : String
  isDir : Bool
deriving DecidableEq, Repr

/-- Supported avatar image extensions (`cli.py` line 132). -/
def supportedImageExts : List String := [".png", ".jpg", ".jpeg", ".webp"]

/-- The json-file test applied by `_select_avatar_assets` to an entry:
not a directory, lowercased name ending in `.json`. -/
def entryIsJson (e : DirEntry) : Bool :=
  !e.isDir && strEndsWith (strToLower e.name) ".json"

/-- The image-file test applied by `_select_avatar_assets` to an entry:
not a directory, lowercased name ending in a supported extension. -/
def entryIsImage (e : DirEntry) : Bool :=
  !e.isDir && supportedImageExts.any (fun ext => strEndsWith (strToLower e.name) ext)

/-- One iteration of the selection loop of `_select_avatar_assets`
(`cli.py` lines 125-133), threading the pair
`(json_path, image_path)`. -/
def selectStep (avatarDir : String) (acc : String × String) (e : DirEntry) :
    String × String :=
  if e.isDir then acc
  else
    let lower := strToLower e.name
    if strEndsWith lower ".json" && acc.1 = "" then
      (avatarDir ++ "/" ++ e.name, acc.2)
    else if supportedImageExts.any (fun ext => strEndsWith lower ext) && acc.2 = "" then
      (acc.1, avatarDir ++ "/" ++ e.name)
    else acc

/-- Lexicographic comparison of character lists by code point,
matching how Python's `sorted` compares strings. -/
def charLeB : List Char → List Char → Bool
  | [], _ => true
  | _ :: _, [] => false
  | a :: as, b :: bs =>
    if a < b then true
    else if b < a then false
    else charLeB as bs

/-- Name order used by `sorted(os.listdir(...))`: lexicographic
comparison of entry names by code point. -/
def entryLE (a b : DirEntry) : Prop := charLeB a.name.data b.name.data = true

lemma charLeB_refl : ∀ l : List Char, charLeB l l = true := by
  intro l
  induction l with
  | nil => rfl
  | cons a as ih =>
    unfold charLeB
    rw [if_neg (lt_irrefl a), if_neg (lt_irrefl a)]
    exact ih

lemma charLeB_total : ∀ a b : List Char, charLeB a b = true ∨ charLeB b a = true := by
  intro a
  induction a with
  | nil => intro b; left; rfl
  | cons x as ih =>
    intro b
    cases b with
    | nil => right; rfl
    | cons y bs =>
      rcases lt_trichotomy x y with hxy | hxy | hxy
      · left; unfold charLeB; rw [if_pos hxy]
      · subst hxy
        rcases ih bs with h | h
        · left; unfold charLeB; rw [if_neg (lt_irrefl x), if_neg (lt_irrefl x)]; exact h
        · right; unfold charLeB; rw [if_neg (lt_irrefl x), if_neg (lt_irrefl x)]; exact h
      · right; unfold charLeB; rw [if_pos hxy]

lemma charLeB_trans : ∀ a b c : List Char,
    charLeB a b = true → charLeB b c = true → charLeB a c = true := by
  intro a
  induction a with
  | nil => intro b c _ _; rfl
  | cons x as ih =>
    intro b c hab hbc
    cases b with
    | nil => exact absurd hab (by simp [charLeB])
    | cons y bs =>
      cases c with
      | nil => exact absurd hbc (by simp [charLeB])
      | cons z cs =>
        unfold charLeB at hab hbc ⊢
        rcases lt_trichotomy x y with hxy | hxy | hxy
        · rcases lt_trichotomy y z with hyz | hyz | hyz
          · rw [if_pos (lt_trans hxy hyz)]
          · subst hyz; rw [if_pos hxy]
          · rw [if_neg (lt_asymm hyz), if_pos hyz] at hbc
            exact absurd hbc (by simp)
        · subst hxy
          rcases lt_trichotomy x z with hyz | hyz | hyz
          · rw [if_pos hyz]
          · subst hyz
            rw [if_neg (lt_irrefl x), if_neg (lt_irrefl x)] at hab hbc ⊢
            exact ih bs cs hab hbc
          · rw [if_neg (lt_asymm hyz), if_pos hyz] at hbc
            exact absurd hbc (by simp)
        · rw [if_neg (lt_asymm hxy), if_pos hxy] at hab
          exact absurd hab (by simp)

instance : DecidableRel entryLE :=
  fun a b => inferInstanceAs (Decidable (charLeB a.name.data b.name.data = true))

instance : IsTotal DirEntry entryLE := ⟨fun a b => charLeB_total a.name.data b.name.data⟩

instance : IsTrans DirEntry entryLE :=
  ⟨fun _ _ _ h h' => charLeB_trans _ _ _ h h'⟩

/-- Embedding of `_select_avatar_assets` (`cli.py` lines 111-140).  The
filesystem is modelled by whether the directory exists and by its entry
list; `sorted(os.listdir(avatar_dir))` becomes an insertion sort by
name. -/
def selectAvatarAssets (avatarDirExists : Bool) (avatarDir : String)
    (entries : List DirEntry) : Except MTError (String × String) :=
  if !avatarDirExists then
    .error (.inputError "Avatar directory not found")
  else
    let sortedEntries := List.insertionSort entryLE entries
    let sel := sortedEntries.foldl (selectStep avatarDir) ("", "")
    if sel.1 = "" ∨ sel.2 = "" then
      .error (.inputError "Avatar directory must contain one json and one image file")
    else .ok sel

/-! ### Avatar download (`cli.py` lines 143-188) -/

/-- The part of an HTTP response observed by the wrapper: final status
code and the `Content-Type` header value. -/
structure HttpResponse where
  status : ℕ
  contentType : String
deriving DecidableEq, Repr

/-- The `Content-Type` to extension lookup table (`cli.py` lines
172-176), in its insertion order. -/
def ctMap : List (String × String) :=
  [("image/jpeg", ".jpg"), ("image/png", ".png"), ("image/webp", ".webp")]

/-- Model of `requests.Response.raise_for_status`: it raises exactly for
client-error (4xx) and server-error (5xx) status codes. -/
def raiseForStatusFails (status : ℕ) : Bool :=
  decide (400 ≤ status) && decide (status < 600)

/-- Embedding of `_download_avatar_from_url` (`cli.py` lines 143-188).
`urlPath` is the path component produced by `urlparse` (query and
fragment already stripped); the transport outcome is `none` for a
`requests.RequestException` and `some r` for a received response.  On
success the function returns the saved file path
`dest_dir/avatar<ext>`. -/
def downloadAvatarFromUrl (urlPath : String) (destDir : String)
    (transport : Option HttpResponse) : Except MTError String :=
  let urlExt0 := strToLower (splitextExt urlPath)
  let urlExt := if supportedImageExts.contains urlExt0 then urlExt0 else ""
  match transport with
  | none => .error (.networkError "Failed to download avatar from presigned URL")
  | some r =>
    if raiseForStatusFails r.status then
      .error (.networkError "Failed to download avatar from presigned URL")
    else
      let ext :=
        if urlExt ≠ "" then urlExt
        else
          match ctMap.find? (fun p => strContains r.contentType p.1) with
          | some p => p.2
          | none => ".png"
      .ok (destDir ++ "/avatar" ++ ext)

/-! ### Payload construction (`cli.py` lines 191-296) -/

/-- The `tts_audio` block of a payload, with each key optional. -/
structure TtsAudio where
  text : Option String := none
  human1_voice : Option String := none
  human2_voice : Option String := none
deriving DecidableEq, Repr

/-- Truthiness of the `tts_audio` dictionary (nonempty mapping). -/
def TtsAudio.nonempty (t : TtsAudio) : Bool :=
  t.text.isSome || t.human1_voice.isSome || t.human2_voice.isSome

/-- The generator-input document, restricted to the keys the wrapper
reads or writes; further keys of a loaded JSON document are irrelevant
to every claim and are not modelled. -/
structure Payload where
  cond_image : Option String := none
  cond_audio_present : Bool := false
  tts_audio : Option TtsAudio := none
  prompt : Option String := none
deriving DecidableEq, Repr

/-- The caller-supplied job record (the JSON file behind `--data`),
with every field optional as in a Python dictionary. -/
structure JobRecord where
  speech_text : Option String := none
  mode : Option String := none
  use_teacache : Option Bool := none
  projectAvatar : Option String := none
  preferredVoice : Option String := none
  tts_audio : Option TtsAudio := none
  video_prompt : Option String := none
  kokoro_voice : Option String := none
  avatar_path : Option String := none
deriving DecidableEq, Repr

/-- Embedding of `_resolve_path` (`cli.py` lines 72-82): absolute paths
pass through, relative ones are joined onto the base directory
(`os.path.abspath` normalisation is not modelled; no claim depends on
it). -/
def resolvePath (base_dir path_value : String) : String :=
  if strStartsWith path_value "/" then path_value
  else base_dir ++ "/" ++ path_value

/-- Embedding of `_resolve_voice_path` (`cli.py` lines 191-210). -/
def resolveVoicePath (preferred_voice : Option String) (base_dir : String) : String :=
  match preferred_voice with
  | none => resolvePath base_dir TTS_VOICE
  | some v =>
    if v = "" then resolvePath base_dir TTS_VOICE
    else if strContains v "/" || strEndsWith v ".pt" then resolvePath base_dir v
    else resolvePath base_dir ("weights/Kokoro-82M/voices/" ++ v ++ ".pt")

/-- Embedding of `_build_input_from_template` (`cli.py` lines 213-251).
`templateLoad` is the outcome of `_load_json` on the checked-in base
template (`none` models a read failure, which raises). -/
def buildInputFromTemplate (templateLoad : Option Payload) (data : JobRecord)
    (base_dir : String) (avatar_image_path : String) : Except MTError Payload :=
  match templateLoad with
  | none => .error (.inputError "Failed to read JSON")
  | some tmpl =>
    let payload := { tmpl with cond_image := some avatar_image_path }
    let payload :=
      if payload.cond_audio_present then payload
      else { payload with cond_audio_present := true }
    if (data.speech_text.getD "") = "" then
      .error (.inputError "speech_text is required for multitalk TTS mode")
    else
      let voice_path := resolveVoicePath data.preferredVoice base_dir
      .ok { payload with
              tts_audio := some { text := data.speech_text
                                  human1_voice := some voice_path
                                  human2_voice := none } }

/-- Embedding of `_build_input_payload` (`cli.py` lines 254-296).
`avatarJsonLoad` is the outcome of `_load_json` on the selected avatar
JSON file. -/
def buildInputPayload (avatarJsonLoad : Option Payload) (data : JobRecord)
    (base_dir : String) (avatar_image : String) : Except MTError Payload :=
  match avatarJsonLoad with
  | none => .error (.inputError "Failed to read JSON")
  | some pj =>
    let payload := { pj with cond_image := some (resolvePath base_dir avatar_image) }
    let payload :=
      if payload.cond_audio_present then payload
      else { payload with cond_audio_present := true }
    let tts_audio := data.tts_audio.getD {}
    if (data.speech_text.getD "") = "" then
      .error (.inputError "speech_text is required for multitalk TTS mode")
    else
      let tts_audio := { tts_audio with text := some (data.speech_text.getD "") }
      if tts_audio.nonempty then
        if tts_audio.text.isNone then
          .error (.inputError "tts_audio provided but missing text")
        else
          let pv := data.preferredVoice.getD ""
          let tts1 :=
            if pv ≠ "" ∧ tts_audio.human1_voice.isNone then
              { tts_audio with
                  human1_voice := some (resolveVoicePath data.preferredVoice base_dir) }
            else if tts_audio.human1_voice.isNone then
              { tts_audio with human1_voice := some TTS_VOICE }
            else tts_audio
          let tts2 :=
            match tts1.human2_voice with
            | some h2 =>
              if h2 ≠ "" then { tts1 with human2_voice := some (resolvePath base_dir h2) }
              else tts1
            | none => tts1
          let tts3 := { tts2 with human1_voice := some (resolvePath base_dir (tts2.human1_voice.getD "")) }
          .ok { payload with tts_audio := some tts3 }
      else .ok payload

/-- Modelled from the spec: the explicit-fields payload-construction
strategy (design document section 4.2, strategy 3) has no implementation
under `src/`; following the spec's words, the payload is built directly
from the four mandatory record fields `video_prompt`, `kokoro_voice`,
`speech_text`, `avatar_path`, and a missing field raises an `InputError`
naming it; the universal precondition also rejects an empty
`speech_text`. -/
def buildInputExplicit (data : JobRecord) : Except MTError Payload :=
  match data.video_prompt with
  | none => .error (.inputError "video_prompt is required")
  | some vp =>
    match data.kokoro_voice with
    | none => .error (.inputError "kokoro_voice is required")
    | some kv =>
      if (data.speech_text.getD "") = "" then
        .error (.inputError "speech_text is required")
      else
        match data.avatar_path with
        | none => .error (.inputError "avatar_path is required")
        | some ap =>
          .ok { cond_image := some ap
                cond_audio_present := true
                tts_audio := some { text := data.speech_text
                                    human1_voice := some kv
                                    human2_voice := none }
                prompt := some vp }

/-! ### The `main` pipeline (`cli.py` lines 325-452) -/

/-- The outcomes of every external interaction `main` performs, fixed
up front so the pipeline itself is a pure function of them. -/
structure Env where
  dataLoad : Option JobRecord := none
  templateLoad : Option Payload := none
  avatarJsonLoad : Option Payload := none
  avatarDirExists : Bool := true
  avatarDirEntries : List DirEntry := []
  downloadUrlPath : String := ""
  httpResponse : Option HttpResponse := none
  runLines : List String := []
  runExit : Int := 0
deriving Repr

/-- Observable outcome of one `main` run: whether the generator
subprocess was started, whether `shutil.rmtree` on the working
directory was attempted, whether the working directory is still on disk
at exit, and the propagated result. -/
structure MainResult where
  spawned : Bool
  cleanupAttempted : Bool
  workDirPresent : Bool
  result : Except MTError Unit
deriving Repr

/-- Embedding of `main` (`cli.py` lines 325-452).  `os.makedirs` at
line 341 creates the working directory before anything can fail, so
every early error path leaves it on disk; only the generator run at
lines 446-452 is wrapped in `try/finally`, whose `finally` block
attempts `shutil.rmtree` and swallows its failure.  The checkpoint
check at line 376 is dead because both `config.py` constants are
nonempty. -/
def mainModel (env : Env) (rmtreeOk : Bool) (repo_dir work_dir : String) : MainResult :=
  match env.dataLoad with
  | none =>
    { spawned := false, cleanupAttempted := false, workDirPresent := true
      result := .error (.inputError "Failed to read JSON") }
  | some data =>
    let payloadRes : Except MTError Payload :=
      if (data.projectAvatar.getD "") ≠ "" then
        match downloadAvatarFromUrl env.downloadUrlPath (work_dir ++ "/avatar")
            env.httpResponse with
        | .error e => .error e
        | .ok img => buildInputFromTemplate env.templateLoad data repo_dir img
      else
        match selectAvatarAssets env.avatarDirExists AVATAR_DIR env.avatarDirEntries with
        | .error e => .error e
        | .ok sel => buildInputPayload env.avatarJsonLoad data repo_dir sel.2
    match payloadRes with
    | .error e =>
      { spawned := false, cleanupAttempted := false, workDirPresent := true
        result := .error e }
    | .ok _ =>
      let speech := data.speech_text.getD ""
      let dur := videoDurationSeconds speech
      let frame_num := frameNumOf dur
      let mode := data.mode.getD "streaming"
      let _max_frames_num := maxFramesNumOf mode dur frame_num
      let runRes := runCommandStreaming env.runLines env.runExit
      { spawned := true, cleanupAttempted := true
        workDirPresent := !rmtreeOk
        result := runRes }

/-! ### Helper lemmas -/

/-- A nonempty string has nonzero length. -/
lemma string_length_ne_zero {s : String} (h : s ≠ "") : s.length ≠ 0 := by
  intro h0
  apply h
  cases s with
  | mk data =>
    have : data.length = 0 := h0
    have hdata : data = [] := List.length_eq_zero.mp this
    simp [hdata]

/-- A thirty-character text, the concrete example used by the
frame-count claims. -/
def thirtyCharText : String := String.mk (List.replicate 30 'a')

/-! ### C2: planner frame_num bounds -/

/-- Claim C2: for every non-empty speech_text, the planner's frame_num
satisfies 33 ≤ frame_num ≤ 81 and (frame_num - 1) % 4 = 0. -/
theorem c2_frame_num_invariant (s : String) (h : s ≠ "") :
    33 ≤ frameNumOf (videoDurationSeconds s) ∧
    frameNumOf (videoDurationSeconds s) ≤ 81 ∧
    (frameNumOf (videoDurationSeconds s) - 1) % 4 = 0 := by
  have hlen := string_length_ne_zero h
  simp only [videoDurationSeconds, estimateSpeechDurationSeconds, frameNumOf, h,
    ne_eq, not_false_iff, if_true, hlen, if_false, if_neg hlen]
  split <;> norm_num

/-- Witness for C2 at a concrete non-empty text. -/
theorem c2_witness :
    33 ≤ frameNumOf (videoDurationSeconds "hello") ∧
    frameNumOf (videoDurationSeconds "hello") ≤ 81 ∧
    (frameNumOf (videoDurationSeconds "hello") - 1) % 4 = 0 :=
  c2_frame_num_invariant "hello" (by decide)

/-! ### C10: frame_num takes only the values 33 and 81 -/

/-- Claim C10: for every input record, frame_num is 33 or 81; it is 33
exactly when a duration estimate exists (non-empty speech_text) and is
strictly below 81/25 seconds, and 81 in every other case, including a
missing or empty speech_text. -/
theorem c10_frame_num_dichotomy (st : Option String) :
    (frameNumOf (videoDurationSeconds (st.getD "")) = 33 ∨
     frameNumOf (videoDurationSeconds (st.getD "")) = 81) ∧
    (frameNumOf (videoDurationSeconds (st.getD "")) = 33 ↔
      ∃ s, st = some s ∧ s ≠ "" ∧ (s.length : ℚ) / CHARS_PER_SECOND < 81 / FPS) := by
  cases st with
  | none =>
    refine ⟨Or.inr rfl, ?_⟩
    constructor
    · intro h; exact absurd h (by decide)
    · rintro ⟨s, hs, -, -⟩; cases hs
  | some s =>
    by_cases hs : s = ""
    · subst hs
      refine ⟨Or.inr rfl, ?_⟩
      constructor
      · intro h; exact absurd h (by decide)
      · rintro ⟨s', hs', hne, -⟩
        cases hs'
        exact absurd rfl hne
    · have hlen := string_length_ne_zero hs
      have hv : videoDurationSeconds s = some ((s.length : ℚ) / CHARS_PER_SECOND) := by
        unfold videoDurationSeconds estimateSpeechDurationSeconds
        rw [if_pos hs, if_neg hlen]
      have hf : frameNumOf (videoDurationSeconds s) =
          if (s.length : ℚ) / CHARS_PER_SECOND < 81 / FPS then 33 else 81 := by
        rw [hv]; rfl
      simp only [Option.getD_some, hf]
      by_cases hd : (s.length : ℚ) / CHARS_PER_SECOND < 81 / FPS
      · rw [if_pos hd]
        exact ⟨Or.inl rfl, by
          constructor
          · intro _; exact ⟨s, rfl, hs, hd⟩
          · intro _; rfl⟩
      · rw [if_neg hd]
        refine ⟨Or.inr rfl, ?_⟩
        constructor
        · intro h; exact absurd h (by decide)
        · rintro ⟨s', hs', -, hd'⟩
          cases hs'
          exact absurd hd' hd

/-! ### C1: the claimed floor/clamp/round algorithm vs the code -/

/-- The planner's duration estimate for the thirty-character example is
exactly two seconds. -/
lemma videoDuration_thirty : videoDurationSeconds thirtyCharText = some 2 := by
  have hne : thirtyCharText ≠ "" := by decide
  have hlen : thirtyCharText.length = 30 := rfl
  unfold videoDurationSeconds estimateSpeechDurationSeconds
  rw [if_pos hne, if_neg (by decide : ¬thirtyCharText.length = 0), hlen]
  norm_num [CHARS_PER_SECOND]

/-- The planner gives frame_num = 33 on the thirty-character example. -/
lemma frameNum_thirty : frameNumOf (videoDurationSeconds thirtyCharText) = 33 := by
  rw [videoDuration_thirty]
  show (if (2 : ℚ) < 81 / FPS then 33 else 81) = 33
  rw [if_pos (by norm_num [FPS])]

/-- The claimed floor/clamp/round algorithm gives 45 at length 30. -/
lemma specClaimFrameNum_thirty : specClaimFrameNum 30 = 45 := by
  have h1 : ((30 : ℕ) : ℚ) / 15 * 25 * (9 / 10) = ((45 : ℤ) : ℚ) := by norm_num
  simp only [specClaimFrameNum]
  rw [h1, Int.floor_intCast]
  norm_num
  decide

/-- Counterexample to claim C1: the planner gives frame_num = 33 for a
text of length 30, not the claimed 45; the claimed algorithm (floor,
clamp, round down to 1 mod 4) would indeed give 45, but it is not what
the code computes. -/
theorem c1_counterexample :
    frameNumOf (videoDurationSeconds thirtyCharText) = 33 ∧
    specClaimFrameNum thirtyCharText.length = 45 ∧
    frameNumOf (videoDurationSeconds thirtyCharText) ≠ 45 := by
  refine ⟨frameNum_thirty, ?_, ?_⟩
  · rw [show thirtyCharText.length = 30 from rfl]
    exact specClaimFrameNum_thirty
  · rw [frameNum_thirty]; norm_num

/-- Claim C1 as amended: for every non-empty speech_text the planner
computes duration = len(text)/15 seconds and then sets frame_num = 33
when duration < 81/25 seconds and 81 otherwise; in particular a text of
length 30 characters yields frame_num = 33. -/
theorem c1_amended_threshold_rule (s : String) (h : s ≠ "") :
    frameNumOf (videoDurationSeconds s) =
      (if (s.length : ℚ) / CHARS_PER_SECOND < 81 / FPS then 33 else 81) ∧
    frameNumOf (videoDurationSeconds thirtyCharText) = 33 := by
  have hlen := string_length_ne_zero h
  have hv : videoDurationSeconds s = some ((s.length : ℚ) / CHARS_PER_SECOND) := by
    unfold videoDurationSeconds estimateSpeechDurationSeconds
    rw [if_pos h, if_neg hlen]
  exact ⟨by rw [hv]; rfl, frameNum_thirty⟩

/-- Witness for the amended C1 at the thirty-character example. -/
theorem c1_witness :
    frameNumOf (videoDurationSeconds thirtyCharText) =
      (if (thirtyCharText.length : ℚ) / CHARS_PER_SECOND < 81 / FPS then 33 else 81) ∧
    frameNumOf (videoDurationSeconds thirtyCharText) = 33 :=
  c1_amended_threshold_rule thirtyCharText (by decide)

/-! ### C5: max_frames_num policy -/

/-- The planner's frame_num is always positive. -/
lemma frameNumOf_pos (d : Option ℚ) : 1 ≤ frameNumOf d := by
  cases d with
  | none => norm_num [frameNumOf]
  | some v =>
    show 1 ≤ (if v < 81 / FPS then 33 else 81)
    split <;> norm_num

/-- The planner's frame_num at a two-second duration estimate. -/
lemma frameNumOf_two : frameNumOf (some 2) = 33 := by
  show (if (2 : ℚ) < 81 / FPS then 33 else 81) = 33
  rw [if_pos (by norm_num [FPS])]

/-- Characterisation of the streaming-mode rounding in
`maxFramesNumOf`: the result is the least value that is at least both
`frame_num` and the needed frame count and is congruent to 1 mod 4. -/
lemma maxFrames_streaming_char (v : ℚ) (fn : ℕ) (hfn : 1 ≤ fn) :
    fn ≤ maxFramesNumOf "streaming" (some v) fn ∧
    (⌊v * FPS⌋).toNat ≤ maxFramesNumOf "streaming" (some v) fn ∧
    maxFramesNumOf "streaming" (some v) fn % 4 = 1 ∧
    ∀ m, fn ≤ m → (⌊v * FPS⌋).toNat ≤ m → m % 4 = 1 →
      maxFramesNumOf "streaming" (some v) fn ≤ m := by
  have hmode : ("streaming" = "clip") = False := by simp
  have hunfold : maxFramesNumOf "streaming" (some v) fn =
      (if (max fn (⌊v * FPS⌋).toNat - 1) % 4 ≠ 0 then
        max fn (⌊v * FPS⌋).toNat + (4 - (max fn (⌊v * FPS⌋).toNat - 1) % 4)
      else max fn (⌊v * FPS⌋).toNat) := by
    unfold maxFramesNumOf
    rw [if_neg (by simp)]
  rw [hunfold]
  set needed := (⌊v * FPS⌋).toNat with hneeded
  set m0 := max fn needed with hm0
  have h1 : fn ≤ m0 := le_max_left _ _
  have h2 : needed ≤ m0 := le_max_right _ _
  have hm0pos : 1 ≤ m0 := le_trans hfn h1
  by_cases hr : (m0 - 1) % 4 = 0
  · rw [if_neg (by simpa using hr)]
    refine ⟨h1, h2, by omega, ?_⟩
    intro m hfm hnm _
    exact max_le hfm hnm
  · rw [if_pos (by simpa using hr)]
    refine ⟨by omega, by omega, by omega, ?_⟩
    intro m hfm hnm hm4
    have hm0le : m0 ≤ m := max_le hfm hnm
    omega

/-- Claim C5: max_frames_num equals frame_num in clip mode; in
streaming mode with a duration estimate it is the least value congruent
to 1 mod 4 that is at least both frame_num and floor(duration * 25)
(hence at least frame_num); in streaming mode without an estimate it is
the fixed ceiling constant 1000. -/
theorem c5_max_frames_policy (st : Option String) (d : Option ℚ) (fn : ℕ)
    (hd : d = videoDurationSeconds (st.getD "")) (hfn : fn = frameNumOf d) :
    maxFramesNumOf "clip" d fn = fn ∧
    (∀ v, d = some v →
      fn ≤ maxFramesNumOf "streaming" d fn ∧
      (⌊v * FPS⌋).toNat ≤ maxFramesNumOf "streaming" d fn ∧
      maxFramesNumOf "streaming" d fn % 4 = 1 ∧
      ∀ m, fn ≤ m → (⌊v * FPS⌋).toNat ≤ m → m % 4 = 1 →
        maxFramesNumOf "streaming" d fn ≤ m) ∧
    (d = none → maxFramesNumOf "streaming" d fn = 1000) := by
  refine ⟨by unfold maxFramesNumOf; rw [if_pos rfl], ?_, ?_⟩
  · intro v hv
    subst hv
    have hfn1 : 1 ≤ fn := hfn ▸ frameNumOf_pos (some v)
    exact maxFrames_streaming_char v fn hfn1
  · intro hnone
    subst hnone
    unfold maxFramesNumOf
    rw [if_neg (by simp)]

/-- Witness for C5 at the thirty-character example (duration two
seconds, frame_num 33). -/
theorem c5_witness :
    maxFramesNumOf "clip" (some 2) 33 = 33 ∧
    33 ≤ maxFramesNumOf "streaming" (some 2) 33 ∧
    maxFramesNumOf "streaming" (some 2) 33 % 4 = 1 := by
  have h := c5_max_frames_policy (some thirtyCharText) (some 2) 33
    (by rw [Option.getD_some, videoDuration_thirty]) frameNumOf_two.symm
  exact ⟨h.1, (h.2.1 2 rfl).1, (h.2.1 2 rfl).2.2.1⟩

/-! ### C6: subprocess failure carries the output tail -/

/-- The tail buffer retains exactly the lines after position
`length - 200`: the most recent (at most) 200 lines. -/
lemma tailBuffer_eq_drop (ls : List String) :
    tailBuffer ls = ls.drop (ls.length - 200) := by
  induction ls using List.reverseRecOn with
  | nil => rfl
  | append_singleton ls a ih =>
    unfold tailBuffer at ih ⊢
    rw [List.foldl_append, List.foldl_cons, List.foldl_nil, ih]
    by_cases hlen : 200 ≤ ls.length
    · have hlendrop : (ls.drop (ls.length - 200)).length = 200 := by
        rw [List.length_drop]; omega
      have hcond : 200 < (ls.drop (ls.length - 200) ++ [a]).length := by
        rw [List.length_append, hlendrop]; norm_num
      simp only [if_pos hcond]
      have hstep : (ls.drop (ls.length - 200) ++ [a]).drop 1 =
          (ls.drop (ls.length - 200)).drop 1 ++ [a] :=
        List.drop_append_of_le_length (by omega)
      rw [hstep, List.drop_drop]
      have harith : ls.length - 200 + 1 = (ls ++ [a]).length - 200 := by
        rw [List.length_append]; simp only [List.length_cons, List.length_nil]; omega
      rw [harith, List.drop_append_of_le_length (by
        rw [List.length_append]; simp only [List.length_cons, List.length_nil]; omega)]
    · have hdrop0 : ls.length - 200 = 0 := by omega
      have hdrop0' : (ls ++ [a]).length - 200 = 0 := by
        rw [List.length_append]; simp only [List.length_cons, List.length_nil]; omega
      rw [hdrop0, hdrop0', List.drop_zero, List.drop_zero]
      have hcond : ¬ 200 < (ls ++ [a]).length := by
        rw [List.length_append]; simp only [List.length_cons, List.length_nil]; omega
      simp only [if_neg hcond]

/-- Claim C6: when the generator exits nonzero, the runner fails with a
subprocess-failure error carrying the exit code and exactly the most
recent (at most) 200 lines of the merged output; with at least 200
lines written the retained tail has exactly 200 lines. -/
theorem c6_failure_tail (lines : List String) (rc : Int) (h : rc ≠ 0) :
    runCommandStreaming lines rc =
      .error (.subprocessFailure rc (lines.drop (lines.length - 200))) ∧
    (200 ≤ lines.length → (tailBuffer lines).length = 200) := by
  constructor
  · unfold runCommandStreaming
    rw [if_pos h, tailBuffer_eq_drop]
  · intro hlen
    rw [tailBuffer_eq_drop, List.length_drop]
    omega

/-- Witness for C6: a subprocess writing 500 lines then exiting with
code 1 surfaces exactly the last 200 of them. -/
theorem c6_witness :
    runCommandStreaming (List.replicate 500 "line") 1 =
      .error (.subprocessFailure 1
        ((List.replicate 500 "line").drop ((List.replicate 500 "line").length - 200))) ∧
    (200 ≤ (List.replicate 500 "line").length →
      (tailBuffer (List.replicate 500 "line")).length = 200) :=
  c6_failure_tail (List.replicate 500 "line") 1 (by decide)

/-! ### C3: working-directory cleanup -/

/-- Counterexample to claim C3: on the error path of a job whose
speech_text is empty (payload construction fails), the `try/finally`
around the generator run is never entered, so removal of the working
directory is not attempted and the directory is still on disk when the
error propagates. -/
theorem c3_counterexample :
    (mainModel { dataLoad := some { speech_text := some "" } } true
        "/repo" "/repo/backend_runs/job").cleanupAttempted = false ∧
    (mainModel { dataLoad := some { speech_text := some "" } } true
        "/repo" "/repo/backend_runs/job").workDirPresent = true := by
  constructor <;> rfl

/-- Claim C3 as amended: once execution reaches the generator run,
removal of the working directory is attempted regardless of the run's
outcome, the directory is absent whenever the removal itself succeeds,
and a removal failure is swallowed (the propagated result does not
depend on the removal outcome); error paths before the generator run
(input load, avatar resolution, payload construction) leave the working
directory in place without attempting removal. -/
theorem c3_amended_cleanup (env : Env) (rmOk : Bool) (r w : String) :
    ((mainModel env rmOk r w).spawned = true →
      (mainModel env rmOk r w).cleanupAttempted = true ∧
      (rmOk = true → (mainModel env rmOk r w).workDirPresent = false) ∧
      (mainModel env rmOk r w).result = runCommandStreaming env.runLines env.runExit) ∧
    ((mainModel env rmOk r w).spawned = false →
      (mainModel env rmOk r w).cleanupAttempted = false ∧
      (mainModel env rmOk r w).workDirPresent = true) ∧
    (∀ b, (mainModel env b r w).result = (mainModel env rmOk r w).result) := by
  unfold mainModel
  cases h : env.dataLoad with
  | none => simp
  | some data =>
    simp only []
    split
    · simp
    · simp

/-- Concrete environment for the C3 witness: a well-formed job whose
generator run fails with exit code 2. -/
def c3WitnessEnv : Env :=
  { dataLoad := some { speech_text := some "hi" }
    avatarJsonLoad := some {}
    avatarDirEntries := [{ name := "a.json", isDir := false },
                         { name := "b.png", isDir := false }]
    runExit := 2 }

/-- Witness for the amended C3: a run that reaches the generator and
fails with exit code 2 still attempts cleanup, leaves no directory when
removal succeeds, and propagates the subprocess failure. -/
theorem c3_witness :
    (mainModel c3WitnessEnv true "/repo" "/w").cleanupAttempted = true ∧
    (true = true → (mainModel c3WitnessEnv true "/repo" "/w").workDirPresent = false) ∧
    (mainModel c3WitnessEnv true "/repo" "/w").result =
      runCommandStreaming c3WitnessEnv.runLines c3WitnessEnv.runExit :=
  (c3_amended_cleanup c3WitnessEnv true "/repo" "/w").1 (by rfl)

/-! ### C4: empty speech_text is rejected by every strategy -/

/-- Claim C4: for every job record whose speech_text is missing or
empty, each of the three payload-construction strategies fails with an
InputError, and `main` never starts the generator subprocess on such a
record. -/
theorem c4_empty_speech_rejected (data : JobRecord) (env : Env) (rmOk : Bool)
    (repo work img : String) (t a : Option Payload)
    (hs : data.speech_text.getD "" = "")
    (henv : env.dataLoad = some data) :
    (∃ m, buildInputFromTemplate t data repo img = .error (.inputError m)) ∧
    (∃ m, buildInputPayload a data repo img = .error (.inputError m)) ∧
    (∃ m, buildInputExplicit data = .error (.inputError m)) ∧
    (mainModel env rmOk repo work).spawned = false := by
  have htmpl : ∀ t' i', ∃ m, buildInputFromTemplate t' data repo i' = .error (.inputError m) := by
    intro t' i'
    cases t' with
    | none => exact ⟨"Failed to read JSON", rfl⟩
    | some tmpl =>
      refine ⟨"speech_text is required for multitalk TTS mode", ?_⟩
      unfold buildInputFromTemplate
      dsimp only
      rw [if_pos hs]
  have hpay : ∀ a' i', ∃ m, buildInputPayload a' data repo i' = .error (.inputError m) := by
    intro a' i'
    cases a' with
    | none => exact ⟨"Failed to read JSON", rfl⟩
    | some pj =>
      refine ⟨"speech_text is required for multitalk TTS mode", ?_⟩
      unfold buildInputPayload
      dsimp only
      rw [if_pos hs]
  have hexp : ∃ m, buildInputExplicit data = .error (.inputError m) := by
    unfold buildInputExplicit
    cases data.video_prompt with
    | none => exact ⟨"video_prompt is required", rfl⟩
    | some vp =>
      cases data.kokoro_voice with
      | none => exact ⟨"kokoro_voice is required", rfl⟩
      | some kv =>
        refine ⟨"speech_text is required", ?_⟩
        simp only [if_pos hs]
  refine ⟨htmpl t img, hpay a img, hexp, ?_⟩
  unfold mainModel
  rw [henv]
  simp only []
  by_cases hpa : (data.projectAvatar.getD "") ≠ ""
  · rw [if_pos hpa]
    cases hdl : downloadAvatarFromUrl env.downloadUrlPath (work ++ "/avatar") env.httpResponse with
    | error e => rfl
    | ok imgPath =>
      obtain ⟨m, hm⟩ := htmpl env.templateLoad imgPath
      dsimp only
      rw [hm]
  · rw [if_neg hpa]
    cases hsel : selectAvatarAssets env.avatarDirExists AVATAR_DIR env.avatarDirEntries with
    | error e => rfl
    | ok sel =>
      obtain ⟨m, hm⟩ := hpay env.avatarJsonLoad sel.2
      dsimp only
      rw [hm]

/-- Witness for C4 at a record with an empty speech_text. -/
theorem c4_witness :
    (∃ m, buildInputFromTemplate none { speech_text := some "" } "/repo" "/img.png" =
      .error (.inputError m)) ∧
    (∃ m, buildInputPayload none { speech_text := some "" } "/repo" "/img.png" =
      .error (.inputError m)) ∧
    (∃ m, buildInputExplicit { speech_text := some "" } = .error (.inputError m)) ∧
    (mainModel { dataLoad := some { speech_text := some "" } } true "/repo" "/w").spawned
      = false :=
  c4_empty_speech_rejected { speech_text := some "" }
    { dataLoad := some { speech_text := some "" } } true "/repo" "/w" "/img.png"
    none none rfl rfl

/-! ### C7: avatar directory scanning -/

/-- The joined path produced for a found entry, or the empty sentinel
used by the loop when nothing was found. -/
def pathOfFound (avatarDir : String) : Option DirEntry → String
  | some e => avatarDir ++ "/" ++ e.name
  | none => ""

/-- A suffix of a common list that is at most as long as another suffix
is a suffix of it. -/
lemma suffix_of_suffix_le {α : Type} {u v l : List α} (hu : u <:+ l) (hv : v <:+ l)
    (hle : u.length ≤ v.length) : u <:+ v := by
  obtain ⟨tu, htu⟩ := hu
  obtain ⟨tv, htv⟩ := hv
  have hlen : tu.length + u.length = tv.length + v.length := by
    rw [← List.length_append, ← List.length_append, htu, htv]
  have htvlen : tv.length ≤ tu.length := by omega
  refine ⟨tu.drop tv.length, ?_⟩
  have h1 : (tu ++ u).drop tv.length = (tv ++ v).drop tv.length := by rw [htu, htv]
  rw [List.drop_append_of_le_length htvlen, List.drop_left] at h1
  exact h1

/-- Bridge between the Boolean `strEndsWith` and the suffix relation. -/
lemma strEndsWith_iff {s suf : String} : strEndsWith s suf = true ↔ suf.data <:+ s.data := by
  unfold strEndsWith
  exact List.isSuffixOf_iff_suffix

/-- A string ending in `.json` cannot also end in a short extension that
is not itself a suffix of `.json`. -/
lemma ends_json_not_ext (l ext : String) (hj : strEndsWith l ".json" = true)
    (hlen : ext.data.length ≤ ".json".data.length)
    (hne : ext.data.isSuffixOf ".json".data = false) :
    strEndsWith l ext = false := by
  by_contra h
  rw [Bool.not_eq_false] at h
  have hsuf : ext.data <:+ l.data := strEndsWith_iff.mp h
  have hjs : (".json" : String).data <:+ l.data := strEndsWith_iff.mp hj
  have hcon : ext.data <:+ (".json" : String).data := suffix_of_suffix_le hsuf hjs hlen
  rw [← List.isSuffixOf_iff_suffix] at hcon
  rw [hne] at hcon
  exact Bool.false_ne_true hcon

/-- A name ending in `.json` matches none of the image extensions. -/
lemma json_excludes_image (l : String) (hj : strEndsWith l ".json" = true) :
    (supportedImageExts.any fun ext => strEndsWith l ext) = false := by
  have h1 := ends_json_not_ext l ".png" hj (by decide) (by decide)
  have h2 := ends_json_not_ext l ".jpg" hj (by decide) (by decide)
  have h3 := ends_json_not_ext l ".jpeg" hj (by decide) (by decide)
  have h4 := ends_json_not_ext l ".webp" hj (by decide) (by decide)
  simp [supportedImageExts, h1, h2, h3, h4]

/-- The joined avatar path is never the empty sentinel. -/
lemma joined_ne_empty (dir n : String) : dir ++ "/" ++ n ≠ "" := by
  intro h
  have h1 : dir.length + "/".length + n.length = "".length := by
    rw [← String.length_append, ← String.length_append, h]
  rw [show ("/" : String).length = 1 from rfl, show ("" : String).length = 0 from rfl] at h1
  omega

/-- Characterisation of the selection loop: each slot of the
accumulator keeps its value once non-empty, and otherwise receives the
path of the first matching entry. -/
lemma foldl_selectStep_char (dir : String) :
    ∀ (es : List DirEntry) (j i : String),
      es.foldl (selectStep dir) (j, i) =
        ((if j = "" then pathOfFound dir (es.find? entryIsJson) else j),
         (if i = "" then pathOfFound dir (es.find? entryIsImage) else i)) := by
  intro es
  induction es with
  | nil =>
    intro j i
    simp only [List.foldl_nil, List.find?_nil, pathOfFound]
    rcases eq_or_ne j "" with hj | hj <;> rcases eq_or_ne i "" with hi | hi <;> simp [hj, hi]
  | cons e es ih =>
    intro j i
    rw [List.foldl_cons]
    by_cases hd : e.isDir
    · have hjF : entryIsJson e = false := by simp [entryIsJson, hd]
      have hiF : entryIsImage e = false := by simp [entryIsImage, hd]
      rw [List.find?_cons_of_neg _ (by simp [hjF]),
        List.find?_cons_of_neg _ (by simp [hiF])]
      have hstep : selectStep dir (j, i) e = (j, i) := by simp [selectStep, hd]
      rw [hstep, ih]
    · by_cases hjs : strEndsWith (strToLower e.name) ".json" = true
      · have hjT : entryIsJson e = true := by simp [entryIsJson, hd, hjs]
        have hiF : entryIsImage e = false := by
          simp only [entryIsImage, json_excludes_image _ hjs, Bool.and_false]
        rw [List.find?_cons_of_pos _ (by simp [hjT]),
          List.find?_cons_of_neg _ (by simp [hiF])]
        by_cases hje : j = ""
        · subst hje
          have hstep : selectStep dir ("", i) e = (dir ++ "/" ++ e.name, i) := by
            simp [selectStep, hd, hjs]
          rw [hstep, ih, if_neg (joined_ne_empty dir e.name), if_pos rfl]
          rfl
        · have hstep : selectStep dir (j, i) e = (j, i) := by
            simp [selectStep, hd, hjs, hje, json_excludes_image _ hjs]
          rw [hstep, ih]
          simp [hje]
      · by_cases his : (supportedImageExts.any fun ext =>
            strEndsWith (strToLower e.name) ext) = true
        · have hjF : entryIsJson e = false := by simp [entryIsJson, hd, hjs]
          have hiT : entryIsImage e = true := by simp [entryIsImage, hd, his]
          rw [List.find?_cons_of_neg _ (by simp [hjF]),
            List.find?_cons_of_pos _ (by simp [hiT])]
          by_cases hie : i = ""
          · subst hie
            have hstep : selectStep dir (j, "") e = (j, dir ++ "/" ++ e.name) := by
              simp [selectStep, hd, hjs, his]
            rw [hstep, ih, if_neg (joined_ne_empty dir e.name), if_pos rfl]
            rfl
          · have hstep : selectStep dir (j, i) e = (j, i) := by
              simp [selectStep, hd, hjs, his, hie]
            rw [hstep, ih]
            simp [hie]
        · have hjF : entryIsJson e = false := by simp [entryIsJson, hd, hjs]
          have hiF : entryIsImage e = false := by simp [entryIsImage, hd, his]
          rw [List.find?_cons_of_neg _ (by simp [hjF]),
            List.find?_cons_of_neg _ (by simp [hiF])]
          have hstep : selectStep dir (j, i) e = (j, i) := by
            simp [selectStep, hd, hjs, his]
          rw [hstep, ih]

/-- On a list sorted by `entryLE`, `find?` returns an entry whose name
is lexicographically least among all entries satisfying the
predicate. -/
lemma find?_min_of_sorted (p : DirEntry → Bool) :
    ∀ (l : List DirEntry), l.Sorted entryLE → ∀ a, l.find? p = some a →
      ∀ b ∈ l, p b = true → entryLE a b := by
  intro l
  induction l with
  | nil => intro _ a ha; simp at ha
  | cons x xs ih =>
    intro hs a hfind b hb hpb
    have hs' := List.sorted_cons.mp hs
    by_cases hpx : p x = true
    · rw [List.find?_cons_of_pos _ (by simp [hpx])] at hfind
      cases hfind
      rcases List.mem_cons.mp hb with hbx | hbxs
      · subst hbx
        exact charLeB_refl _
      · exact hs'.1 b hbxs
    · rw [List.find?_cons_of_neg _ (by simp [hpx])] at hfind
      rcases List.mem_cons.mp hb with hbx | hbxs
      · subst hbx
        exact absurd hpb hpx
      · exact ih hs'.2 a hfind b hbxs hpb

/-- Claim C7: the directory scan sorts the entries lexicographically,
selects as config the first non-directory entry ending in `.json` and
as image the first ending in a supported image extension, errors with
an InputError when the directory is missing or either selection is
empty, and the selected entries are lexicographically least among the
candidates (so with two JSON files the first one wins). -/
theorem c7_select_avatar_assets (ex : Bool) (dir : String) (entries : List DirEntry) :
    (selectAvatarAssets ex dir entries =
      if ex = false then .error (.inputError "Avatar directory not found")
      else
        match (List.insertionSort entryLE entries).find? entryIsJson,
            (List.insertionSort entryLE entries).find? entryIsImage with
        | some ej, some ei => .ok (dir ++ "/" ++ ej.name, dir ++ "/" ++ ei.name)
        | some _, none =>
          .error (.inputError "Avatar directory must contain one json and one image file")
        | none, _ =>
          .error (.inputError "Avatar directory must contain one json and one image file")) ∧
    (∀ ej, (List.insertionSort entryLE entries).find? entryIsJson = some ej →
      ∀ b ∈ entries, entryIsJson b = true → entryLE ej b) ∧
    (∀ ei, (List.insertionSort entryLE entries).find? entryIsImage = some ei →
      ∀ b ∈ entries, entryIsImage b = true → entryLE ei b) := by
  refine ⟨?_, ?_, ?_⟩
  · cases ex with
    | false => rfl
    | true =>
      have hfold := foldl_selectStep_char dir (List.insertionSort entryLE entries) "" ""
      cases hj : (List.insertionSort entryLE entries).find? entryIsJson with
      | none =>
        unfold selectAvatarAssets
        simp [hfold, hj, pathOfFound]
      | some ej =>
        cases hi : (List.insertionSort entryLE entries).find? entryIsImage with
        | none =>
          unfold selectAvatarAssets
          simp [hfold, hj, hi, pathOfFound]
        | some ei =>
          unfold selectAvatarAssets
          simp [hfold, hj, hi, pathOfFound, joined_ne_empty dir ej.name,
            joined_ne_empty dir ei.name]
  · intro ej hfound b hb hpb
    exact find?_min_of_sorted entryIsJson _
      (List.sorted_insertionSort entryLE entries) ej hfound b
      ((List.perm_insertionSort entryLE entries).mem_iff.mpr hb) hpb
  · intro ei hfound b hb hpb
    exact find?_min_of_sorted entryIsImage _
      (List.sorted_insertionSort entryLE entries) ei hfound b
      ((List.perm_insertionSort entryLE entries).mem_iff.mpr hb) hpb

/-- Witness for C7: a directory with two JSON files and one image picks
the lexicographically first JSON file; with the image removed it
errors. -/
theorem c7_witness :
    selectAvatarAssets true "/av"
      [{ name := "b.json", isDir := false }, { name := "a.json", isDir := false },
       { name := "c.png", isDir := false }] = .ok ("/av/a.json", "/av/c.png") ∧
    selectAvatarAssets true "/av"
      [{ name := "b.json", isDir := false }, { name := "a.json", isDir := false }] =
      .error (.inputError "Avatar directory must contain one json and one image file") := by
  constructor
  · rw [(c7_select_avatar_assets true "/av"
      [{ name := "b.json", isDir := false }, { name := "a.json", isDir := false },
       { name := "c.png", isDir := false }]).1]
    rfl
  · rw [(c7_select_avatar_assets true "/av"
      [{ name := "b.json", isDir := false }, { name := "a.json", isDir := false }]).1]
    rfl

/-! ### C8: explicit-fields strategy -/

/-- Claim C8: the explicit-fields strategy builds the payload directly
from the four mandatory record fields, and a missing field (checked in
the order video_prompt, kokoro_voice, speech_text, avatar_path) fails
with an InputError naming that field. -/
theorem c8_explicit_fields (data : JobRecord) :
    (data.video_prompt = none →
      buildInputExplicit data = .error (.inputError "video_prompt is required")) ∧
    (data.video_prompt.isSome = true → data.kokoro_voice = none →
      buildInputExplicit data = .error (.inputError "kokoro_voice is required")) ∧
    (data.video_prompt.isSome = true → data.kokoro_voice.isSome = true →
      data.speech_text.getD "" = "" →
      buildInputExplicit data = .error (.inputError "speech_text is required")) ∧
    (data.video_prompt.isSome = true → data.kokoro_voice.isSome = true →
      data.speech_text.getD "" ≠ "" → data.avatar_path = none →
      buildInputExplicit data = .error (.inputError "avatar_path is required")) ∧
    (∀ vp kv st ap, data.video_prompt = some vp → data.kokoro_voice = some kv →
      data.speech_text = some st → st ≠ "" → data.avatar_path = some ap →
      buildInputExplicit data =
        .ok { cond_image := some ap
              cond_audio_present := true
              tts_audio := some { text := some st
                                  human1_voice := some kv
                                  human2_voice := none }
              prompt := some vp }) := by
  refine ⟨?_, ?_, ?_, ?_, ?_⟩
  · intro hvp
    unfold buildInputExplicit
    rw [hvp]
  · intro hvp hkv
    obtain ⟨vp, hvp'⟩ := Option.isSome_iff_exists.mp hvp
    unfold buildInputExplicit
    rw [hvp', hkv]
  · intro hvp hkv hst
    obtain ⟨vp, hvp'⟩ := Option.isSome_iff_exists.mp hvp
    obtain ⟨kv, hkv'⟩ := Option.isSome_iff_exists.mp hkv
    unfold buildInputExplicit
    rw [hvp', hkv']
    dsimp only
    rw [if_pos hst]
  · intro hvp hkv hst hap
    obtain ⟨vp, hvp'⟩ := Option.isSome_iff_exists.mp hvp
    obtain ⟨kv, hkv'⟩ := Option.isSome_iff_exists.mp hkv
    unfold buildInputExplicit
    rw [hvp', hkv']
    dsimp only
    rw [if_neg hst, hap]
  · intro vp kv st ap hvp hkv hst hstne hap
    unfold buildInputExplicit
    rw [hvp, hkv]
    dsimp only
    rw [if_neg (by simp [hst, hstne]), hap]
    rw [hst]

/-- Witness for C8 at a fully-populated record. -/
theorem c8_witness :
    buildInputExplicit { speech_text := some "hi", video_prompt := some "a talking head"
                         kokoro_voice := some "af_heart", avatar_path := some "/av/face.png" } =
      .ok { cond_image := some "/av/face.png"
            cond_audio_present := true
            tts_audio := some { text := some "hi"
                                human1_voice := some "af_heart"
                                human2_voice := none }
            prompt := some "a talking head" } :=
  (c8_explicit_fields _).2.2.2.2 "a talking head" "af_heart" "hi" "/av/face.png"
    rfl rfl rfl (by decide) rfl

/-! ### C9: avatar download extension and error policy -/

/-- Counterexample to claim C9: a response with HTTP status 304 is not
a 2xx status, yet the download succeeds (the code raises only on 4xx
and 5xx, the statuses `raise_for_status` rejects). -/
theorem c9_counterexample :
    downloadAvatarFromUrl "/avatars/face.png" "/w/av"
      (some { status := 304, contentType := "" }) = .ok "/w/av/avatar.png" ∧
    ¬(200 ≤ 304 ∧ 304 ≤ 299) := by
  exact ⟨rfl, by decide⟩

/-- Claim C9 as amended: the saved extension is derived first from the
URL path, then from the Content-Type lookup table (first matching
entry), then falls back to ".png"; a NetworkError is raised on any
transport failure or on an HTTP status in [400, 600) — statuses outside
that range, such as 304, are accepted. -/
theorem c9_amended_download (urlPath destDir : String) (tr : Option HttpResponse) :
    (tr = none → downloadAvatarFromUrl urlPath destDir tr =
      .error (.networkError "Failed to download avatar from presigned URL")) ∧
    (∀ r, tr = some r → 400 ≤ r.status → r.status < 600 →
      downloadAvatarFromUrl urlPath destDir tr =
        .error (.networkError "Failed to download avatar from presigned URL")) ∧
    (∀ r, tr = some r → ¬(400 ≤ r.status ∧ r.status < 600) →
      (supportedImageExts.contains (strToLower (splitextExt urlPath)) = true →
        downloadAvatarFromUrl urlPath destDir tr =
          .ok (destDir ++ "/avatar" ++ strToLower (splitextExt urlPath))) ∧
      (supportedImageExts.contains (strToLower (splitextExt urlPath)) = false →
        (∀ p, ctMap.find? (fun q => strContains r.contentType q.1) = some p →
          downloadAvatarFromUrl urlPath destDir tr = .ok (destDir ++ "/avatar" ++ p.2)) ∧
        (ctMap.find? (fun q => strContains r.contentType q.1) = none →
          downloadAvatarFromUrl urlPath destDir tr =
            .ok (destDir ++ "/avatar" ++ ".png")))) := by
  refine ⟨?_, ?_, ?_⟩
  · intro h
    subst h
    rfl
  · intro r hr h4 h6
    subst hr
    have hfs : raiseForStatusFails r.status = true := by
      unfold raiseForStatusFails
      rw [decide_eq_true h4, decide_eq_true h6]
      rfl
    unfold downloadAvatarFromUrl
    simp [hfs]
  · intro r hr hno
    subst hr
    have hfs : raiseForStatusFails r.status = false := by
      unfold raiseForStatusFails
      rcases Nat.lt_or_ge r.status 400 with h | h
      · rw [decide_eq_false (by omega)]
        rfl
      · have h600 : ¬ r.status < 600 := fun hlt => hno ⟨h, hlt⟩
        rw [decide_eq_false h600, Bool.and_false]
    constructor
    · intro hc
      have hne : strToLower (splitextExt urlPath) ≠ "" := by
        intro h0
        rw [h0] at hc
        exact absurd hc (by decide)
      have hm : strToLower (splitextExt urlPath) ∈ supportedImageExts := by
        simpa using hc
      unfold downloadAvatarFromUrl
      simp [hfs, hc, hne, hm]
    · intro hc
      have hm : ¬ strToLower (splitextExt urlPath) ∈ supportedImageExts := by
        simpa using hc
      constructor
      · intro p hp
        unfold downloadAvatarFromUrl
        simp [hfs, hc, hp, hm]
      · intro hp
        unfold downloadAvatarFromUrl
        simp [hfs, hc, hp, hm]

/-- Witness for the amended C9: a URL path without a usable extension
and a Content-Type of image/webp produce a .webp file under the
destination directory. -/
theorem c9_witness :
    downloadAvatarFromUrl "/x/face" "/w"
      (some { status := 200, contentType := "image/webp" }) = .ok ("/w" ++ "/avatar" ++ ".webp") :=
  (((c9_amended_download "/x/face" "/w" (some { status := 200, contentType := "image/webp" })).2.2
      { status := 200, contentType := "image/webp" } rfl (by decide)).2 (by decide)).1
    ("image/webp", ".webp") (by decide)
